import Mathlib

/-!
Verification of the request-to-query compiler in `app.py` of the
R2 Data Gateway ("gpt-middleware").  The Python source is shallowly
embedded: pure string-building functions become Lean functions on
`String`/`List Char`; the external collaborators (object store signing,
JSON parsing, the DuckDB engine) are abstracted as function parameters;
HTTP exceptions become an `Except HttpErr` error channel.
-/

namespace Gateway

/-- Errors raised through the web framework: a status code and a message.
Mirrors `HTTPException(code, msg)` in `app.py`. -/
structure HttpErr where
  code : Nat
  msg : String
  deriving Repr, DecidableEq

/-! ## Python value model

Filter values arrive from a JSON body, so the relevant Python runtime
value universe for `build_filter_sql` is: ints, floats, bools, strings,
`None`, and lists thereof.  Floats are not modelled (no claim depends on
float rendering); the numeric class `isinstance(v, (int, float))` is
modelled over ints, and — crucially — Python `bool` is a subclass of
`int`, so `isinstance(True, (int, float))` is `True`. -/

inductive PyVal where
  | int (n : Int)
  | bool (b : Bool)
  | str (s : String)
  | none
  | list (l : List PyVal)
  deriving Repr

/-- Python `repr` of a value, as used by `str()` on lists.  For strings,
Python picks double quotes when the string has a single quote and no
double quote, else single quotes, escaping the chosen quote and
backslashes (control-character escaping is not modelled). -/
def pyReprEsc (q : Char) : List Char → List Char
  | [] => []
  | c :: r =>
    if c = '\\' then '\\' :: '\\' :: pyReprEsc q r
    else if c = q then '\\' :: c :: pyReprEsc q r
    else c :: pyReprEsc q r

mutual

def pyRepr : PyVal → String
  | .int n => toString n
  | .bool b => if b then "True" else "False"
  | .str s =>
    let q : Char := if s.data.contains '\x27' ∧ ¬ s.data.contains '"' then '"' else '\x27'
    String.mk (q :: pyReprEsc q s.data ++ [q])
  | .none => "None"
  | .list l => "[" ++ pyReprList l ++ "]"

def pyReprList : List PyVal → String
  | [] => ""
  | [v] => pyRepr v
  | v :: r => pyRepr v ++ ", " ++ pyReprList r

end

/-- Python `str()` of a value.  `str` on a list delegates to the `repr`
of its elements. -/
def pyStr : PyVal → String
  | .int n => toString n
  | .bool b => if b then "True" else "False"
  | .str s => s
  | .none => "None"
  | .list l => "[" ++ pyReprList l ++ "]"

/-- `isinstance(v, (int, float))` — true for ints and also for bools,
since Python `bool` is a subclass of `int`. -/
def isInstNum : PyVal → Bool
  | .int _ => true
  | .bool _ => true
  | _ => false

/-- `isinstance(v, bool)`. -/
def isBool : PyVal → Bool
  | .bool _ => true
  | _ => false

/-- `isinstance(v, (int, float)) and not isinstance(v, bool)` — the
numeric test of the scalar and IN branches of `build_filter_sql`. -/
def isNumNonBool (v : PyVal) : Bool := isInstNum v && !isBool v

/-- `isinstance(v, list)`. -/
def isList : PyVal → Bool
  | .list _ => true
  | _ => false

/-- The elements of a list value (`[]` on non-lists; only used under an
`isList` guard, as in the source). -/
def listElems : PyVal → List PyVal
  | .list l => l
  | _ => []

/-! ## Quoting (`quote_ident` at app.py:92 and the literal quoting
inline in `build_filter_sql` at app.py:110-127) -/

/-- Double every occurrence of the character `q` in a character list.
This is Python's `s.replace(q, q+q)` for a single-character pattern. -/
def dupChar (q : Char) : List Char → List Char
  | [] => []
  | c :: r => if c = q then q :: q :: dupChar q r else c :: dupChar q r

/-- `quote_ident` (app.py:92): wrap in double quotes, doubling internal
double quotes. -/
def quote_ident (name : String) : String :=
  "\"" ++ String.mk (dupChar '"' name.data) ++ "\""

/-- Single-quote a string, doubling internal single quotes: the
`"'" + str(v).replace("'", "''") + "'"` pattern of `build_filter_sql`. -/
def sqQuote (s : String) : String :=
  "\x27" ++ String.mk (dupChar '\x27' s.data) ++ "\x27"

/-! ## Predicate compiler (`build_filter_sql`, app.py:106-128) -/

/-- A filter specification from the request body: `f["col"]`,
`f.get("op", "=")`, `f.get("value")` (absent value is Python `None`). -/
structure Filter where
  col : String
  op : Option String
  value : PyVal
  deriving Repr

/-- Rendering of one scalar in the default and IN branches
(app.py:113-116 and 124-127): numeric non-bool values unquoted via
`str`, everything else single-quoted with doubling. -/
def scalarLit (v : PyVal) : String :=
  if isNumNonBool v then pyStr v else sqQuote (pyStr v)

/-- Rendering of a BETWEEN endpoint (app.py:120-121): note the check is
`isinstance(a, (int, float))` with NO bool exclusion, so Python booleans
(being ints) are emitted unquoted. -/
def betweenLit (v : PyVal) : String :=
  if isInstNum v then pyStr v else sqQuote (pyStr v)

/-- Python `.upper()`, as a per-character map (ASCII-faithful; the
operators and directions compared against are all ASCII). -/
def pyUpper (s : String) : String := String.mk (s.data.map Char.toUpper)

/-- Python `.lower()`, as a per-character map (ASCII-faithful). -/
def pyLower (s : String) : String := String.mk (s.data.map Char.toLower)

/-- Python `.strip()`: drop leading and trailing whitespace. -/
def pyStrip (s : String) : String :=
  String.mk (((s.data.dropWhile Char.isWhitespace).reverse.dropWhile Char.isWhitespace).reverse)

/-- Python `.endswith(suffix)`. -/
def pyEndsWith (s suffix : String) : Bool := suffix.data.isSuffixOf s.data

/-- The operator normalization `f.get("op", "=").upper().strip()`
(app.py:108). -/
def filterOp (f : Filter) : String := pyStrip (pyUpper (f.op.getD "="))

/-- `build_filter_sql` (app.py:106-128).  Total: the source function has
no error path — unrecognized operator/value combinations fall through to
the default scalar branch. -/
def build_filter_sql (f : Filter) : String :=
  let col := quote_ident f.col
  let op := filterOp f
  if (op = "IN" ∨ op = "NOT IN") ∧ isList f.value then
    col ++ " " ++ op ++ " (" ++
      String.intercalate ", " ((listElems f.value).map scalarLit) ++ ")"
  else if op = "BETWEEN" ∧ isList f.value ∧ (listElems f.value).length = 2 then
    match listElems f.value with
    | [a, b] => col ++ " BETWEEN " ++ betweenLit a ++ " AND " ++ betweenLit b
    | _ => ""
  else
    col ++ " " ++ op ++ " " ++ scalarLit f.value

/-! ## Ordering resolver (`ensure_order_by`, app.py:130-143) -/

/-- One order-by item from the request body: `ob["col"]`,
`ob.get("dir", "asc")`. -/
structure OrderBy where
  col : String
  dir : Option String
  deriving Repr

/-- The validated direction of one order-by item: `.upper()` then
default to `ASC` unless the result is `ASC` or `DESC`. -/
def obDir (ob : OrderBy) : String :=
  let d := pyUpper (ob.dir.getD "asc")
  if d = "ASC" ∨ d = "DESC" then d else "ASC"

/-- `ensure_order_by` (app.py:130-143).  `order_by = none` models the
Python `None` default; an empty list is falsy in Python, so both fall
through to the fallback. -/
def ensure_order_by (select_cols : List String) (order_by : Option (List OrderBy)) : String :=
  let obs := order_by.getD []
  if ¬ obs.isEmpty then
    " ORDER BY " ++ String.intercalate ", "
      (obs.map fun ob => quote_ident ob.col ++ " " ++ obDir ob)
  else if ¬ select_cols.isEmpty then
    " ORDER BY " ++ quote_ident (select_cols.headD "") ++ " ASC"
  else
    ""

/-! ## Table expression resolver (`read_table_sql`, app.py:96-104) -/

/-- `read_table_sql` (app.py:96-104): parquet scan when the format hint
or a `.parquet` suffix (case-insensitive) says so, else a CSV scan whose
options depend on the coercion policy. -/
def read_table_sql (url : String) (fmt : Option String) (coerce : String) : String :=
  if fmt = some "parquet" ∨ (fmt = Option.none ∧ pyEndsWith (pyLower url) ".parquet") then
    "parquet_scan(\x27" ++ url ++ "\x27)"
  else if coerce = "all_varchar" then
    "read_csv_auto(\x27" ++ url ++ "\x27, HEADER=TRUE, ALL_VARCHAR=TRUE)"
  else
    "read_csv_auto(\x27" ++ url ++ "\x27, HEADER=TRUE)"

/-! ## Catalog (`load_catalog`, app.py:76-83) -/

/-- One catalog entry: `{"format": ..., "keys": [...], "aliases": {...}}`
with every field optional in the JSON (the source reads each with
`.get`). -/
structure CatalogEntry where
  format : Option String
  keys : List String
  aliases : List (String × String)
  deriving Repr, DecidableEq

/-- The parsed catalog document: dataset name → entry. -/
def Catalog := List (String × CatalogEntry)

/-- Dictionary lookup `ds in cat` / `cat[ds]`. -/
def catFind : Catalog → String → Option CatalogEntry
  | [], _ => Option.none
  | p :: r, ds => if p.1 = ds then some p.2 else catFind r ds

/-- `load_catalog` (app.py:76-83).  `fetched` is the result of
`r2_get_text` (`none` models its exception path, app.py:34-39); `parse`
models `json.loads` with `none` for a parse exception.  `if not txt`
also catches the empty string. -/
def load_catalog (fetched : Option String) (parse : String → Option Catalog) : Catalog :=
  match fetched with
  | Option.none => []
  | some txt => if txt = "" then [] else (parse txt).getD []

/-! ## Pagination clamps (`/query`, app.py:289-290, 371-372) -/

/-- `page = max(1, int(body.get("page", 1)))` (app.py:289). -/
def pageClamp (p : Int) : Int := max 1 p

/-- `page_size = min(10_000, max(1, int(body.get("page_size", 1000))))`
(app.py:290). -/
def pageSizeClamp (ps : Int) : Int := min 10000 (max 1 ps)

/-- `offset = (page - 1) * page_size` (app.py:371). -/
def pageOffset (page page_size : Int) : Int := (page - 1) * page_size

/-- `limit_sql = f" LIMIT {page_size} OFFSET {offset}"` (app.py:372). -/
def limit_sql (page_size offset : Int) : String :=
  " LIMIT " ++ toString page_size ++ " OFFSET " ++ toString offset

/-! ## Aggregations (`/query`, app.py:350-356) -/

/-- One aggregation item: `{"alias": ..., "expr": ...}`. -/
structure Agg where
  aliasName : String
  expr : String
  deriving Repr

/-- `f"{expr} AS {alias}"` with the alias quoted (app.py:353-356). -/
def aggPart (a : Agg) : String := a.expr ++ " AS " ++ quote_ident a.aliasName

/-! ## Dataset resolution in `/query` (app.py:297-312) -/

/-- Resolution of the dataset list to table expressions and alias maps
(app.py:298-312).  `sign` models `r2_signed_url`.  A catalog entry with
an empty `keys` list raises 404. -/
def resolveTables (cat : Catalog) (sign : String → String) (coerce : String) :
    List String → Except HttpErr (List String × List (List (String × String)))
  | [] => .ok ([], [])
  | ds :: rest =>
    match catFind cat ds with
    | some e =>
      if e.keys = [] then
        .error ⟨404, "Catalog entry \x27" ++ ds ++ "\x27 has no keys"⟩
      else
        match resolveTables cat sign coerce rest with
        | .error err => .error err
        | .ok (ts, als) =>
          .ok (e.keys.map (fun k => read_table_sql (sign k) e.format coerce) ++ ts,
               e.keys.map (fun _ => e.aliases) ++ als)
    | Option.none =>
      match resolveTables cat sign coerce rest with
      | .error err => .error err
      | .ok (ts, als) =>
        .ok (read_table_sql (sign ds) Option.none coerce :: ts, [] :: als)

/-! ## `/query` compilation (app.py:258-378) -/

/-- The `/query` request body after the `.get`-with-default extraction
of app.py:281-292 (with `page`/`page_size` still unclamped ints). -/
structure QueryBody where
  datasets : List String
  mode : String
  on_keys : List String
  select_cols : List String
  filters : List Filter
  aggs : List Agg
  group_by : List String
  order_by : Option (List OrderBy)
  page : Int
  page_size : Int
  coerce : String
  deriving Repr

/-- The union-mode base CTE (app.py:317-320). -/
def unionBaseCte (table_exprs : List String) : String :=
  "base AS (" ++
    String.intercalate " UNION BY NAME ALL "
      (table_exprs.map (fun t => "SELECT * FROM " ++ t)) ++ ")"

/-- One join condition conjunct (app.py:329): coalesce over the exact
and lower-cased variants of the key on both sides. -/
def joinCond (i : Nat) (k : String) : String :=
  "coalesce(t0." ++ quote_ident k ++ ", t0." ++ quote_ident (pyLower k) ++
    ") = coalesce(t" ++ toString i ++ "." ++ quote_ident k ++ ", t" ++
    toString i ++ "." ++ quote_ident (pyLower k) ++ ")"

/-- The chain of LEFT JOINs (app.py:328-330), `i` numbering from 1. -/
def joinChain (on_keys : List String) (i : Nat) : List String → String
  | [] => ""
  | t :: rest =>
    "LEFT JOIN " ++ t ++ " t" ++ toString i ++ " ON " ++
      String.intercalate " AND " (on_keys.map (joinCond i)) ++ " " ++
      joinChain on_keys (i + 1) rest

/-- The join-mode base SQL (app.py:327-330). -/
def joinBaseSql (table_exprs : List String) (on_keys : List String) : String :=
  match table_exprs with
  | [] => ""
  | t0 :: rest => "SELECT * FROM " ++ t0 ++ " t0 " ++ joinChain on_keys 1 rest

/-- The WHERE clause (app.py:337-340). -/
def whereSql (filters : List Filter) : String :=
  if ¬ filters.isEmpty then
    " WHERE " ++ String.intercalate " AND " (filters.map build_filter_sql)
  else ""

/-- The SELECT list of the two non-grouped branches (app.py:342-348,
358-360, 366-367): aggregation parts alone when aggregations exist
without group-by; else the quoted column list or `*`. -/
def selectSqlOf (select_cols : List String) (aggs : List Agg) (group_by : List String) : String :=
  if ¬ aggs.isEmpty ∧ group_by.isEmpty then
    String.intercalate ", " (aggs.map aggPart)
  else if ¬ select_cols.isEmpty then
    String.intercalate ", " (select_cols.map quote_ident)
  else "*"

/-- The projection of the grouped branch (app.py:361-363): quoted
group-by columns followed by the aggregation parts. -/
def groupedProj (group_by : List String) (aggs : List Agg) : String :=
  String.intercalate ", " (group_by.map quote_ident ++ aggs.map aggPart)

/-- The GROUP BY clause of the grouped branch (app.py:362-364). -/
def groupSql (group_by : List String) : String :=
  " GROUP BY " ++ String.intercalate ", " (group_by.map quote_ident)

/-- The base-CTE selection of `/query` (app.py:316-334): union mode,
join mode with its two 400 guards, or a 400 for any other mode. -/
def baseCteOf (mode : String) (table_exprs : List String) (on_keys : List String) :
    Except HttpErr String :=
  if mode = "union" then
    .ok (unionBaseCte table_exprs)
  else if mode = "join" then
    if table_exprs.length < 2 then
      .error ⟨400, "join mode requires at least two datasets"⟩
    else if on_keys = [] then
      .error ⟨400, "join mode requires \x27on\x27 keys"⟩
    else
      .ok ("base AS (" ++ joinBaseSql table_exprs on_keys ++ ")")
  else
    .error ⟨400, "mode must be \x27union\x27 or \x27join\x27"⟩

/-- The fallback list for ordering, `select_cols or group_by`
(app.py:370). -/
def orderFallback (b : QueryBody) : List String :=
  if ¬ b.select_cols.isEmpty then b.select_cols else b.group_by

/-- The pagination clause of a request, after both clamps
(app.py:289-290, 371-372). -/
def limSqlOf (b : QueryBody) : String :=
  limit_sql (pageSizeClamp b.page_size)
    (pageOffset (pageClamp b.page) (pageSizeClamp b.page_size))

/-- The final SQL assembly of `/query` (app.py:336-378), given the base
CTE: filters, projection/aggregation branch, ordering, pagination. -/
def assembleSql (base_cte : String) (b : QueryBody) : String :=
  let where_sql := whereSql b.filters
  let order_sql := ensure_order_by (orderFallback b) b.order_by
  let lim := limSqlOf b
  if ¬ b.aggs.isEmpty ∧ ¬ b.group_by.isEmpty then
    "WITH " ++ base_cte ++ " SELECT " ++ groupedProj b.group_by b.aggs ++
      " FROM base " ++ where_sql ++ " " ++ groupSql b.group_by ++ " " ++
      order_sql ++ " " ++ lim
  else
    "WITH " ++ base_cte ++ " SELECT " ++
      selectSqlOf b.select_cols b.aggs b.group_by ++
      " FROM base " ++ where_sql ++ " " ++ order_sql ++ " " ++ lim

/-- `/query` compilation to the final SQL text (app.py:279-378), up to
but not including engine execution.  The `cat` argument is the loaded
catalog; `sign` models `r2_signed_url`. -/
def compile_query (cat : Catalog) (sign : String → String) (b : QueryBody) :
    Except HttpErr String :=
  if b.datasets = [] then
    .error ⟨400, "datasets is required"⟩
  else
    match resolveTables cat sign b.coerce b.datasets with
    | .error err => .error err
    | .ok (table_exprs, _alias_maps) =>
      match baseCteOf b.mode table_exprs b.on_keys with
      | .error err => .error err
      | .ok base_cte => .ok (assembleSql base_cte b)

/-! ## `/preview` compilation (app.py:216-248) -/

/-- The `/preview` request body after extraction (app.py:226-229),
`limit` still unclamped. -/
structure PreviewBody where
  datasets : List String
  limit : Int
  coerce : String
  deriving Repr

/-- The item list of `/preview` (app.py:235-242): a scan expression and
an alias map per catalog key, or a raw-key scan.  A catalog entry with
an empty `keys` list contributes NO items — there is no 404 check here,
unlike `/query` and `/schema`. -/
def previewItems (cat : Catalog) (sign : String → String) (coerce : String) :
    List String → List (String × List (String × String))
  | [] => []
  | ds :: rest =>
    (match catFind cat ds with
     | some e => e.keys.map (fun k => (read_table_sql (sign k) e.format coerce, e.aliases))
     | Option.none => [(read_table_sql (sign ds) Option.none coerce, [])]) ++
    previewItems cat sign coerce rest

/-- `/preview` compilation to the executed SQL text (app.py:226-248).
The alias component of each item is dropped (`for t, _ in items`). -/
def compile_preview (cat : Catalog) (sign : String → String) (b : PreviewBody) :
    Except HttpErr String :=
  let limit : Int := max 1 (min b.limit 2000)
  if b.datasets = [] then
    .error ⟨400, "datasets is required"⟩
  else
    let items := previewItems cat sign b.coerce b.datasets
    let union_sql := String.intercalate " UNION BY NAME ALL "
      (items.map (fun it => "SELECT * FROM " ++ it.1))
    .ok ("SELECT * FROM (" ++ union_sql ++ ") LIMIT " ++ toString limit)

/-! ## `/schema` source resolution (app.py:186-207) -/

/-- `/schema` compilation up to the probe query text (app.py:192-207):
resolve the source to a URL (404 when a catalog entry has no keys),
build the table expression, probe one row. -/
def compile_schema (cat : Catalog) (sign : String → String) (source : String)
    (coerce : String) : Except HttpErr String :=
  match catFind cat source with
  | some e =>
    if e.keys = [] then
      .error ⟨404, "Catalog entry \x27" ++ source ++ "\x27 has no keys"⟩
    else
      .ok ("SELECT * FROM " ++
        read_table_sql (sign (e.keys.headD "")) e.format coerce ++ " LIMIT 1")
  | Option.none =>
    .ok ("SELECT * FROM " ++ read_table_sql (sign source) Option.none coerce ++ " LIMIT 1")

/-! ## Unquoting rules for the round-trip property (spec §8) -/

/-- Strip one leading and one trailing character: the trivial outer
unquoting step. -/
def stripOuter (s : String) : String :=
  String.mk (s.data.drop 1).dropLast

/-- Collapse each doubled occurrence of `q` back to a single one
(left-to-right, the inverse of `dupChar`). -/
def collapseChar (q : Char) : List Char → List Char
  | [] => []
  | [c] => [c]
  | c :: c2 :: r =>
    if c = q ∧ c2 = q then q :: collapseChar q r
    else c :: collapseChar q (c2 :: r)

/-- The identifier unquoting rule: strip the outer double quotes and
collapse doubled internal double quotes. -/
def unquoteIdent (s : String) : String :=
  String.mk (collapseChar '"' (stripOuter s).data)

/-- The literal unquoting rule: strip the outer single quotes and
collapse doubled internal single quotes. -/
def unquoteLit (s : String) : String :=
  String.mk (collapseChar '\x27' (stripOuter s).data)

/-! ## Alias-erasure view of the catalog, for the alias-independence
property -/

/-- A catalog with every `aliases` map erased: two catalogs that "differ
only in aliases" are exactly two catalogs with the same `stripAliases`
image. -/
def stripAliases (cat : Catalog) : Catalog :=
  cat.map (fun p => (p.1, ⟨p.2.format, p.2.keys, []⟩))

/-- The alias-free core of a catalog entry: its format hint and keys. -/
def entryCore (e : CatalogEntry) : Option String × List String :=
  (e.format, e.keys)

/-! ## Concrete fixtures used to evaluate the theorems below -/

/-- A trivial signing function for concrete evaluations: the signed URL
of a key is the key itself. -/
def idSign : String → String := fun k => k

/-- A concrete `/query` body: one raw CSV key, an explicit one-column
projection, no filters, no aggregations. -/
def qbSelect : QueryBody :=
  ⟨["k.csv"], "union", [], ["a"], [], [], [], Option.none, 1, 50, "auto"⟩

/-! # Theorems -/

theorem dupChar_eq_nil_iff (q : Char) (l : List Char) : dupChar q l = [] ↔ l = [] := by
  cases l with
  | nil => simp [dupChar]
  | cons c r => simp only [dupChar]; split <;> simp

theorem collapseChar_dupChar (q : Char) (l : List Char) :
    collapseChar q (dupChar q l) = l := by
  induction l with
  | nil => simp [dupChar, collapseChar]
  | cons c r ih =>
    by_cases hc : c = q
    · subst hc
      simp only [dupChar, if_pos rfl]
      simp [collapseChar, ih]
    · simp only [dupChar, if_neg hc]
      cases hr : dupChar q r with
      | nil =>
        have hre : r = [] := (dupChar_eq_nil_iff q r).mp hr
        subst hre
        simp [collapseChar]
      | cons c2 rest =>
        rw [collapseChar]
        rw [if_neg (by simp [hc]), ← hr, ih]

theorem quote_ident_data (s : String) :
    (quote_ident s).data = '"' :: (dupChar '"' s.data ++ ['"']) := rfl

theorem sqQuote_data (s : String) :
    (sqQuote s).data = '\x27' :: (dupChar '\x27' s.data ++ ['\x27']) := rfl

theorem unquoteIdent_quote_ident (s : String) : unquoteIdent (quote_ident s) = s := by
  unfold unquoteIdent stripOuter
  rw [quote_ident_data]
  simp [List.dropLast_concat, collapseChar_dupChar]

theorem unquoteLit_sqQuote (s : String) : unquoteLit (sqQuote s) = s := by
  unfold unquoteLit stripOuter
  rw [sqQuote_data]
  simp [List.dropLast_concat, collapseChar_dupChar]

/-- C9: quoting round-trips.  For every identifier string (including
ones containing the double-quote character), stripping the outer double
quotes of `quote_ident` and collapsing doubled internal double quotes
recovers the original; for every non-numeric literal value (the ones the
compiler single-quotes: strings, booleans, `None`, lists — in both the
scalar/IN rendering `scalarLit` and the BETWEEN rendering `betweenLit`),
stripping the outer single quotes and collapsing doubled internal single
quotes recovers the value's string form `pyStr`. -/
theorem quoting_round_trip :
    (∀ s : String, unquoteIdent (quote_ident s) = s) ∧
    (∀ v : PyVal, isNumNonBool v = false → unquoteLit (scalarLit v) = pyStr v) ∧
    (∀ v : PyVal, isInstNum v = false → unquoteLit (betweenLit v) = pyStr v) := by
  refine ⟨unquoteIdent_quote_ident, fun v hv => ?_, fun v hv => ?_⟩
  · rw [scalarLit, hv]
    simp [unquoteLit_sqQuote]
  · rw [betweenLit, hv]
    simp [unquoteLit_sqQuote]

/-- C9 witness: the round trip evaluated on an identifier with an
embedded double quote, and on a literal with an embedded single
quote. -/
theorem quoting_round_trip_witness :
    unquoteIdent (quote_ident "we\"ird") = "we\"ird" ∧
    isNumNonBool (PyVal.str "O\x27Brien") = false ∧
    unquoteLit (scalarLit (PyVal.str "O\x27Brien")) = "O\x27Brien" :=
  ⟨quoting_round_trip.1 "we\"ird", by decide,
    quoting_round_trip.2.1 (PyVal.str "O\x27Brien") (by decide)⟩

/-- C1 counterexample: a filter with operator `IN` and a NON-sequence
value does not fail compilation with a 400-class error — the whole
request compiles to `.ok` with the filter silently coerced into the
scalar clause `"ticker" IN 'AAPL'`. -/
theorem malformed_filter_not_rejected_counterexample :
    compile_query [] (fun k => k)
      ⟨["data.csv"], "union", [], [],
        [⟨"ticker", some "IN", PyVal.str "AAPL"⟩],
        [], [], Option.none, 1, 1000, "auto"⟩ =
    Except.ok ("WITH base AS (SELECT * FROM read_csv_auto(\x27data.csv\x27," ++
      " HEADER=TRUE)) SELECT * FROM base  WHERE \"ticker\" IN \x27AAPL\x27" ++
      "   LIMIT 1000 OFFSET 0") := by
  rfl

/-- C1 (amended): a filter with wrong value arity for its operator
(`IN`/`NOT IN` with a non-sequence value, `BETWEEN` with a value that is
not a 2-element sequence, or any other operator with a sequence value)
does NOT fail compilation; `build_filter_sql` silently coerces it
through the default scalar branch, rendering
`col op <scalar rendering of value>`. -/
theorem malformed_filter_coerced (f : Filter)
    (h : ((filterOp f = "IN" ∨ filterOp f = "NOT IN") ∧ isList f.value = false) ∨
         (filterOp f = "BETWEEN" ∧
           (isList f.value = false ∨ (listElems f.value).length ≠ 2)) ∨
         (filterOp f ≠ "IN" ∧ filterOp f ≠ "NOT IN" ∧ filterOp f ≠ "BETWEEN" ∧
           isList f.value = true)) :
    build_filter_sql f =
      quote_ident f.col ++ " " ++ filterOp f ++ " " ++ scalarLit f.value := by
  rw [build_filter_sql]
  split_ifs with hc1 hc2
  · exfalso
    rcases h with ⟨hop, hv⟩ | ⟨hop, hv⟩ | ⟨h1, h2, h3, hv⟩
    · rw [hv] at hc1; exact absurd hc1.2 (by decide)
    · rcases hc1.1 with hIN | hNI
      · exact absurd (hop.symm.trans hIN) (by decide)
      · exact absurd (hop.symm.trans hNI) (by decide)
    · rcases hc1.1 with hIN | hNI
      · exact h1 hIN
      · exact h2 hNI
  · exfalso
    rcases h with ⟨hop, hv⟩ | ⟨hop, hv⟩ | ⟨h1, h2, h3, hv⟩
    · rw [hv] at hc2; exact absurd hc2.2.1 (by decide)
    · rcases hv with hv | hv
      · rw [hv] at hc2; exact absurd hc2.2.1 (by decide)
      · exact hv hc2.2.2
    · exact h3 hc2.1
  · rfl

/-- C1 witness: the amended theorem applied to a BETWEEN filter whose
value is a 3-element sequence. -/
theorem malformed_filter_coerced_witness :
    build_filter_sql ⟨"x", some "BETWEEN", PyVal.list [PyVal.int 1, PyVal.int 2, PyVal.int 3]⟩ =
      quote_ident "x" ++ " " ++ "BETWEEN" ++ " " ++
        scalarLit (PyVal.list [PyVal.int 1, PyVal.int 2, PyVal.int 3]) :=
  malformed_filter_coerced
    ⟨"x", some "BETWEEN", PyVal.list [PyVal.int 1, PyVal.int 2, PyVal.int 3]⟩
    (Or.inr (Or.inl ⟨rfl, Or.inr (by decide)⟩))

/-- C2 counterexample: the caller-supplied operator string
`UNION SELECT` — far outside the closed operator set — is interpolated
verbatim into the compiled predicate, passing through neither
`quote_ident` nor the literal quoting. -/
theorem operator_not_validated_counterexample :
    build_filter_sql ⟨"c", some "UNION SELECT", PyVal.str "v"⟩ =
      "\"c\" UNION SELECT \x27v\x27" := by
  rfl

/-- C2 (amended): only `IN`, `NOT IN` and `BETWEEN` receive special
handling; for every filter with a non-sequence value, the operator —
whatever string the caller supplied — is uppercased, trimmed, and
interpolated verbatim between the quoted column and the rendered
literal, with no validation against the closed operator set. -/
theorem operator_interpolated_verbatim (c o : String) (v : PyVal)
    (h : isList v = false) :
    build_filter_sql ⟨c, some o, v⟩ =
      quote_ident c ++ " " ++ pyStrip (pyUpper o) ++ " " ++ scalarLit v := by
  rw [build_filter_sql]
  split_ifs with hc1 hc2
  · exfalso; rw [h] at hc1; exact absurd hc1.2 (by decide)
  · exfalso; rw [h] at hc2; exact absurd hc2.2.1 (by decide)
  · rfl

/-- C2 witness: the amended theorem applied to an operator far outside
the closed set. -/
theorem operator_interpolated_verbatim_witness :
    build_filter_sql ⟨"c", some "; drop table x --", PyVal.int 7⟩ =
      quote_ident "c" ++ " " ++ pyStrip (pyUpper "; drop table x --") ++ " " ++
        scalarLit (PyVal.int 7) :=
  operator_interpolated_verbatim "c" "; drop table x --" (PyVal.int 7) (by decide)

/-- C3 counterexample: in the BETWEEN branch a boolean endpoint is NOT
wrapped in single quotes — Python `bool` passes the branch's
`isinstance(a, (int, float))` test, so `False`/`True` are emitted
unquoted, contradicting the claim that every non-numeric value
(booleans included) is quoted in every operator branch. -/
theorem between_bool_unquoted_counterexample :
    build_filter_sql ⟨"flag", some "BETWEEN", PyVal.list [PyVal.bool false, PyVal.bool true]⟩ =
      "\"flag\" BETWEEN False AND True" := by
  rfl

/-- C3 (amended): in the scalar branch and the IN/NOT IN element branch,
a numeric non-boolean value is emitted unquoted in decimal form and every
other value (booleans included) is single-quoted with internal quotes
doubled; in the BETWEEN branch, however, the numeric test lacks the
boolean exclusion, so boolean endpoints are emitted unquoted
(`True`/`False`) while other non-numeric endpoints are quoted. -/
theorem literal_rendering_by_branch :
    (∀ (c : String) (l : List PyVal),
       build_filter_sql ⟨c, some "IN", PyVal.list l⟩ =
         quote_ident c ++ " " ++ "IN" ++ " (" ++
           String.intercalate ", " (l.map scalarLit) ++ ")") ∧
    (∀ (c : String) (a b : PyVal),
       build_filter_sql ⟨c, some "BETWEEN", PyVal.list [a, b]⟩ =
         quote_ident c ++ " BETWEEN " ++ betweenLit a ++ " AND " ++ betweenLit b) ∧
    (∀ n : Int, scalarLit (PyVal.int n) = toString n ∧
       betweenLit (PyVal.int n) = toString n) ∧
    (∀ v : PyVal, isNumNonBool v = false → scalarLit v = sqQuote (pyStr v)) ∧
    (∀ bo : Bool, scalarLit (PyVal.bool bo) = sqQuote (if bo then "True" else "False") ∧
       betweenLit (PyVal.bool bo) = (if bo then "True" else "False")) ∧
    (∀ v : PyVal, isInstNum v = false → betweenLit v = sqQuote (pyStr v)) := by
  refine ⟨fun c l => ?_, fun c a b => ?_, fun n => ⟨rfl, rfl⟩,
    fun v hv => ?_, fun bo => ⟨?_, ?_⟩, fun v hv => ?_⟩
  · rw [build_filter_sql]
    split_ifs with hc1 hc2
    · rfl
    · exact absurd ⟨Or.inl rfl, rfl⟩ hc1
    · exact absurd ⟨Or.inl rfl, rfl⟩ hc1
  · rw [build_filter_sql]
    split_ifs with hc1 hc2
    · exfalso
      rcases hc1 with ⟨hop | hop, -⟩
      · exact absurd (show "BETWEEN" = "IN" from hop) (by decide)
      · exact absurd (show "BETWEEN" = "NOT IN" from hop) (by decide)
    · rfl
    · exact absurd ⟨rfl, rfl, rfl⟩ hc2
  · rw [scalarLit, hv]; simp
  · cases bo <;> rfl
  · cases bo <;> rfl
  · rw [betweenLit, hv]; simp

/-- C3 witness: the branch renderings evaluated at concrete inputs with
a boolean element, a numeric element and a quoted string element. -/
theorem literal_rendering_by_branch_witness :
    build_filter_sql ⟨"t", some "IN", PyVal.list [PyVal.int 3, PyVal.bool true]⟩ =
      quote_ident "t" ++ " " ++ "IN" ++ " (" ++
        String.intercalate ", "
          ([PyVal.int 3, PyVal.bool true].map scalarLit) ++ ")" ∧
    isNumNonBool (PyVal.str "a\x27b") = false ∧
    scalarLit (PyVal.str "a\x27b") = sqQuote (pyStr (PyVal.str "a\x27b")) ∧
    isInstNum (PyVal.str "z") = false ∧
    betweenLit (PyVal.str "z") = sqQuote (pyStr (PyVal.str "z")) :=
  ⟨literal_rendering_by_branch.1 "t" [PyVal.int 3, PyVal.bool true],
    by decide,
    literal_rendering_by_branch.2.2.2.1 (PyVal.str "a\x27b") (by decide),
    by decide,
    literal_rendering_by_branch.2.2.2.2.2 (PyVal.str "z") (by decide)⟩

theorem resolveTables_error_of_empty_keys (cat : Catalog) (sign : String → String)
    (coerce : String) (dss : List String) (ds : String) (e : CatalogEntry)
    (hmem : ds ∈ dss) (h1 : catFind cat ds = some e) (h2 : e.keys = []) :
    ∃ ds2 e2, ds2 ∈ dss ∧ catFind cat ds2 = some e2 ∧ e2.keys = [] ∧
      resolveTables cat sign coerce dss =
        .error ⟨404, "Catalog entry \x27" ++ ds2 ++ "\x27 has no keys"⟩ := by
  induction dss with
  | nil => cases hmem
  | cons d rest ih =>
    cases hf : catFind cat d with
    | some e2 =>
      by_cases hk : e2.keys = []
      · exact ⟨d, e2, List.mem_cons_self _ _, hf, hk,
          by simp [resolveTables, hf, hk]⟩
      · have hds : ds ∈ rest := by
          rcases List.mem_cons.mp hmem with rfl | hds
          · rw [hf] at h1; cases h1; exact absurd h2 hk
          · exact hds
        obtain ⟨ds2, e3, hds2, hfe, hke, hres⟩ := ih hds
        refine ⟨ds2, e3, List.mem_cons_of_mem _ hds2, hfe, hke, ?_⟩
        simp [resolveTables, hf, hk, hres]
    | none =>
      have hds : ds ∈ rest := by
        rcases List.mem_cons.mp hmem with rfl | hds
        · rw [hf] at h1; cases h1
        · exact hds
      obtain ⟨ds2, e3, hds2, hfe, hke, hres⟩ := ih hds
      refine ⟨ds2, e3, List.mem_cons_of_mem _ hds2, hfe, hke, ?_⟩
      simp [resolveTables, hf, hres]

/-- C4 counterexample: a `/preview` request over a catalog entry whose
`keys` list is empty does NOT fail with a NotFound error — the entry is
silently skipped (it contributes zero scans, app.py:239), and the
compiled text is the malformed query `SELECT * FROM () LIMIT 100`. -/
theorem preview_empty_keys_skipped_counterexample :
    compile_preview [("empty", ⟨Option.none, [], []⟩)] (fun k => k)
      ⟨["empty"], 100, "all_varchar"⟩ =
      Except.ok "SELECT * FROM () LIMIT 100" := by
  rfl

/-- C4 (amended): a `/query` or `/schema` request that queries a catalog
entry whose `keys` list is empty fails with a client-visible 404 error
naming the entry; `/preview`, however, has no such check — it silently
skips the entry's (absent) keys, and when no other dataset contributes a
scan the compiled text is the malformed `SELECT * FROM () LIMIT n`. -/
theorem empty_keys_404_query_schema (cat : Catalog) (sign : String → String)
    (b : QueryBody) (ds : String) (e : CatalogEntry) (coerce : String)
    (hmem : ds ∈ b.datasets) (h1 : catFind cat ds = some e) (h2 : e.keys = []) :
    (∃ ds2, ds2 ∈ b.datasets ∧
      compile_query cat sign b =
        .error ⟨404, "Catalog entry \x27" ++ ds2 ++ "\x27 has no keys"⟩) ∧
    compile_schema cat sign ds coerce =
      .error ⟨404, "Catalog entry \x27" ++ ds ++ "\x27 has no keys"⟩ := by
  constructor
  · obtain ⟨ds2, e2, hds2, -, -, hres⟩ :=
      resolveTables_error_of_empty_keys cat sign b.coerce b.datasets ds e hmem h1 h2
    refine ⟨ds2, hds2, ?_⟩
    simp [compile_query, List.ne_nil_of_mem hmem, hres]
  · simp [compile_schema, h1, h2]

/-- C4 witness: the 404 behavior of `/query` and `/schema` evaluated on
a one-entry catalog whose entry has no keys. -/
theorem empty_keys_404_query_schema_witness :
    "empty" ∈ ["empty"] ∧
    catFind [("empty", ⟨Option.none, [], []⟩)] "empty" =
      some ⟨Option.none, [], []⟩ ∧
    (∃ ds2, ds2 ∈ ["empty"] ∧
      compile_query [("empty", ⟨Option.none, [], []⟩)] (fun k => k)
          ⟨["empty"], "union", [], [], [], [], [], Option.none, 1, 1000, "auto"⟩ =
        .error ⟨404, "Catalog entry \x27" ++ ds2 ++ "\x27 has no keys"⟩) ∧
    compile_schema [("empty", ⟨Option.none, [], []⟩)] (fun k => k) "empty" "auto" =
      .error ⟨404, "Catalog entry \x27" ++ "empty" ++ "\x27 has no keys"⟩ := by
  refine ⟨by decide, by decide, ?_⟩
  exact empty_keys_404_query_schema [("empty", ⟨Option.none, [], []⟩)] (fun k => k)
    ⟨["empty"], "union", [], [], [], [], [], Option.none, 1, 1000, "auto"⟩
    "empty" ⟨Option.none, [], []⟩ "auto"
    (List.mem_cons_self _ _) rfl rfl

/-- C5: the compiled SELECT list takes exactly one of three mutually
exclusive shapes.  No aggregations: the quoted explicit column list, or
`*` when none is given, and no GROUP BY.  Aggregations without group-by:
exactly the aliased aggregation expressions, no plain columns and no
GROUP BY.  Aggregations with group-by: the quoted group-by columns
followed by the aliased aggregation expressions, with a GROUP BY clause
over the quoted group-by columns. -/
theorem select_list_trichotomy (cat : Catalog) (sign : String → String)
    (b : QueryBody) (s : String) (h : compile_query cat sign b = .ok s) :
    ∃ cte,
      (b.aggs = [] →
        s = "WITH " ++ cte ++ " SELECT " ++
          (if b.select_cols.isEmpty then "*"
           else String.intercalate ", " (b.select_cols.map quote_ident)) ++
          " FROM base " ++ whereSql b.filters ++ " " ++
          ensure_order_by (orderFallback b) b.order_by ++ " " ++ limSqlOf b) ∧
      (b.aggs ≠ [] → b.group_by = [] →
        s = "WITH " ++ cte ++ " SELECT " ++
          String.intercalate ", " (b.aggs.map aggPart) ++
          " FROM base " ++ whereSql b.filters ++ " " ++
          ensure_order_by (orderFallback b) b.order_by ++ " " ++ limSqlOf b) ∧
      (b.aggs ≠ [] → b.group_by ≠ [] →
        s = "WITH " ++ cte ++ " SELECT " ++
          String.intercalate ", " (b.group_by.map quote_ident ++ b.aggs.map aggPart) ++
          " FROM base " ++ whereSql b.filters ++ " " ++
          (" GROUP BY " ++ String.intercalate ", " (b.group_by.map quote_ident)) ++
          " " ++ ensure_order_by (orderFallback b) b.order_by ++ " " ++ limSqlOf b) := by
  rw [compile_query] at h
  by_cases hd : b.datasets = []
  · rw [if_pos hd] at h; cases h
  · rw [if_neg hd] at h
    cases hr : resolveTables cat sign b.coerce b.datasets with
    | error e => rw [hr] at h; cases h
    | ok p =>
      rw [hr] at h
      cases hc : baseCteOf b.mode p.1 b.on_keys with
      | error e => simp only [hc] at h; cases h
      | ok cte =>
        simp only [hc] at h
        have hs : s = assembleSql cte b := (Except.ok.injEq _ _).mp h |>.symm
        subst hs
        refine ⟨cte, fun ha => ?_, fun ha hg => ?_, fun ha hg => ?_⟩
        · simp [assembleSql, selectSqlOf, ha]
        · simp [assembleSql, selectSqlOf, ha, hg]
        · simp [assembleSql, groupedProj, groupSql, ha, hg]

/-- C5 witness: the trichotomy applied to a request with an explicit
projection and no aggregations. -/
theorem select_list_trichotomy_witness :
    ∃ cte,
      (qbSelect.aggs = [] →
        ("WITH base AS (SELECT * FROM read_csv_auto(\x27k.csv\x27, HEADER=TRUE))" ++
          " SELECT \"a\" FROM base   ORDER BY \"a\" ASC  LIMIT 50 OFFSET 0") =
          "WITH " ++ cte ++ " SELECT " ++
            (if qbSelect.select_cols.isEmpty then "*"
             else String.intercalate ", " (qbSelect.select_cols.map quote_ident)) ++
            " FROM base " ++ whereSql qbSelect.filters ++ " " ++
            ensure_order_by (orderFallback qbSelect) qbSelect.order_by ++ " " ++
            limSqlOf qbSelect) ∧
      (qbSelect.aggs ≠ [] → qbSelect.group_by = [] →
        ("WITH base AS (SELECT * FROM read_csv_auto(\x27k.csv\x27, HEADER=TRUE))" ++
          " SELECT \"a\" FROM base   ORDER BY \"a\" ASC  LIMIT 50 OFFSET 0") =
          "WITH " ++ cte ++ " SELECT " ++
            String.intercalate ", " (qbSelect.aggs.map aggPart) ++
            " FROM base " ++ whereSql qbSelect.filters ++ " " ++
            ensure_order_by (orderFallback qbSelect) qbSelect.order_by ++ " " ++
            limSqlOf qbSelect) ∧
      (qbSelect.aggs ≠ [] → qbSelect.group_by ≠ [] →
        ("WITH base AS (SELECT * FROM read_csv_auto(\x27k.csv\x27, HEADER=TRUE))" ++
          " SELECT \"a\" FROM base   ORDER BY \"a\" ASC  LIMIT 50 OFFSET 0") =
          "WITH " ++ cte ++ " SELECT " ++
            String.intercalate ", "
              (qbSelect.group_by.map quote_ident ++ qbSelect.aggs.map aggPart) ++
            " FROM base " ++ whereSql qbSelect.filters ++ " " ++
            (" GROUP BY " ++
              String.intercalate ", " (qbSelect.group_by.map quote_ident)) ++
            " " ++ ensure_order_by (orderFallback qbSelect) qbSelect.order_by ++ " " ++
            limSqlOf qbSelect) :=
  select_list_trichotomy [] idSign qbSelect
    ("WITH base AS (SELECT * FROM read_csv_auto(\x27k.csv\x27, HEADER=TRUE))" ++
      " SELECT \"a\" FROM base   ORDER BY \"a\" ASC  LIMIT 50 OFFSET 0")
    (by rfl)

theorem ensure_order_by_fallback (fb : List String) (ob? : Option (List OrderBy))
    (hob : ob? = Option.none ∨ ob? = some []) :
    ensure_order_by fb ob? =
      if fb.isEmpty then "" else " ORDER BY " ++ quote_ident (fb.headD "") ++ " ASC" := by
  rcases hob with rfl | rfl <;>
  · rw [ensure_order_by]
    by_cases hf : fb.isEmpty <;> simp [hf]

/-- C6: ordering resolution.  A non-empty explicit order-by list yields
an ORDER BY over each quoted column with its validated direction, where
any direction other than asc/desc (case-insensitively) silently defaults
to ASC; otherwise a non-empty fallback list (the explicit select
columns, else the group-by columns, as `orderFallback` computes) yields
an ORDER BY on its first column ascending; otherwise no ORDER BY is
emitted. -/
theorem ordering_resolution (sc gb : List String) (ob? : Option (List OrderBy)) :
    (∀ obs, ob? = some obs → obs ≠ [] →
      ensure_order_by (if sc.isEmpty then gb else sc) ob? =
        " ORDER BY " ++ String.intercalate ", "
          (obs.map fun ob => quote_ident ob.col ++ " " ++ obDir ob)) ∧
    (∀ ob : OrderBy,
      ((pyUpper (ob.dir.getD "asc") ≠ "ASC" ∧ pyUpper (ob.dir.getD "asc") ≠ "DESC") →
        obDir ob = "ASC") ∧
      ((pyUpper (ob.dir.getD "asc") = "ASC" ∨ pyUpper (ob.dir.getD "asc") = "DESC") →
        obDir ob = pyUpper (ob.dir.getD "asc"))) ∧
    ((ob? = Option.none ∨ ob? = some []) →
      ((if sc.isEmpty then gb else sc) ≠ [] →
        ensure_order_by (if sc.isEmpty then gb else sc) ob? =
          " ORDER BY " ++ quote_ident ((if sc.isEmpty then gb else sc).headD "") ++
            " ASC") ∧
      ((if sc.isEmpty then gb else sc) = [] →
        ensure_order_by (if sc.isEmpty then gb else sc) ob? = "")) ∧
    (∀ b : QueryBody,
      orderFallback b = if b.select_cols.isEmpty then b.group_by else b.select_cols) := by
  refine ⟨fun obs hob hne => ?_, fun ob => ⟨fun hinv => ?_, fun hval => ?_⟩,
    fun hob => ⟨fun hne => ?_, fun hemp => ?_⟩, fun b => ?_⟩
  · rw [ensure_order_by, hob]
    simp [List.isEmpty_iff, hne]
  · simp only [obDir]
    rw [if_neg]
    rintro (h | h)
    · exact hinv.1 h
    · exact hinv.2 h
  · simp only [obDir]
    rw [if_pos hval]
  · rw [ensure_order_by_fallback _ _ hob, if_neg]
    rw [List.isEmpty_iff]
    exact hne
  · rw [ensure_order_by_fallback _ _ hob, if_pos]
    rw [List.isEmpty_iff]
    exact hemp
  · rw [orderFallback]
    by_cases hb : b.select_cols.isEmpty <;> simp [hb]

/-- C6 witness: an explicit order-by with a valid `desc` direction and
an invalid `sideways` direction (defaulted to ASC), and the fallback and
empty cases. -/
theorem ordering_resolution_witness :
    (ensure_order_by (if ([] : List String).isEmpty then ["g"] else [])
        (some [⟨"c", some "desc"⟩, ⟨"d", some "sideways"⟩]) =
      " ORDER BY " ++ String.intercalate ", "
        ([OrderBy.mk "c" (some "desc"), OrderBy.mk "d" (some "sideways")].map
          fun ob => quote_ident ob.col ++ " " ++ obDir ob)) ∧
    obDir ⟨"d", some "sideways"⟩ = "ASC" ∧
    (ensure_order_by (if ([] : List String).isEmpty then ["g"] else [])
        Option.none = " ORDER BY " ++ quote_ident "g" ++ " ASC") ∧
    ensure_order_by (if ([] : List String).isEmpty then [] else []) (some []) = "" :=
  ⟨(ordering_resolution [] ["g"] (some [⟨"c", some "desc"⟩, ⟨"d", some "sideways"⟩])).1
      [⟨"c", some "desc"⟩, ⟨"d", some "sideways"⟩] rfl (List.cons_ne_nil _ _),
    ((ordering_resolution [] ["g"] Option.none).2.1 ⟨"d", some "sideways"⟩).1
      (by decide),
    ((ordering_resolution [] ["g"] Option.none).2.2.1 (Or.inl rfl)).1 (by decide),
    ((ordering_resolution [] [] (some [])).2.2.1 (Or.inr rfl)).2 (by decide)⟩

/-- C7: pagination.  The clamped page is at least 1, the clamped page
size lies in [1, 10000], the pagination clause is exactly
`LIMIT page_size OFFSET (page - 1) * page_size`, the offset is 0 for
page 1 and non-negative always, and every assembled query ends with the
pagination clause. -/
theorem pagination_clause (p ps : Int) (cte : String) (b : QueryBody) :
    1 ≤ pageClamp p ∧
    1 ≤ pageSizeClamp ps ∧ pageSizeClamp ps ≤ 10000 ∧
    limSqlOf b = " LIMIT " ++ toString (pageSizeClamp b.page_size) ++ " OFFSET " ++
      toString ((pageClamp b.page - 1) * pageSizeClamp b.page_size) ∧
    pageOffset (pageClamp 1) (pageSizeClamp ps) = 0 ∧
    0 ≤ pageOffset (pageClamp p) (pageSizeClamp ps) ∧
    ∃ r, assembleSql cte b = r ++ limSqlOf b := by
  have h1 : 1 ≤ pageSizeClamp ps :=
    le_min (by norm_num) (le_max_left 1 ps)
  refine ⟨le_max_left 1 p, h1, min_le_left _ _, rfl, ?_, ?_, ?_⟩
  · simp [pageOffset, pageClamp]
  · exact mul_nonneg (by simp [pageClamp]) (le_trans zero_le_one h1)
  · simp only [assembleSql]
    split_ifs <;> exact ⟨_, rfl⟩

/-- C8: catalog fail-open.  `load_catalog` returns the empty mapping
when the fetch fails (`r2_get_text` returned `None`), when it returns
empty content, and when parsing fails; and with an empty catalog a
request addressed to a raw storage key still compiles successfully, for
both `/query` and `/preview`. -/
theorem catalog_fail_open :
    (∀ parse, load_catalog Option.none parse = []) ∧
    (∀ parse, load_catalog (some "") parse = []) ∧
    (∀ txt parse, parse txt = Option.none → load_catalog (some txt) parse = []) ∧
    (∀ (sign : String → String) (k coerce : String),
      ∃ s, compile_query [] sign
        ⟨[k], "union", [], [], [], [], [], Option.none, 1, 1000, coerce⟩ =
        .ok s) ∧
    (∀ (sign : String → String) (k coerce : String) (lim : Int),
      ∃ s, compile_preview [] sign ⟨[k], lim, coerce⟩ = .ok s) := by
  refine ⟨fun parse => rfl, fun parse => rfl, fun txt parse hp => ?_,
    fun sign k coerce => ⟨_, rfl⟩, fun sign k coerce lim => ⟨_, rfl⟩⟩
  rw [load_catalog]
  split_ifs with h
  · rfl
  · rw [hp]; rfl

/-- C8 witness: fail-open evaluated on unparsable catalog content, plus
the parse-failure hypothesis discharged concretely. -/
theorem catalog_fail_open_witness :
    (fun _ : String => (Option.none : Option Catalog)) "corrupt not-json content" =
      Option.none ∧
    load_catalog (some "corrupt not-json content") (fun _ => Option.none) = [] :=
  ⟨rfl, catalog_fail_open.2.2.1 "corrupt not-json content" (fun _ => Option.none) rfl⟩

theorem stripAliases_catFind (c1 c2 : Catalog) (h : stripAliases c1 = stripAliases c2)
    (ds : String) :
    (catFind c1 ds).map entryCore = (catFind c2 ds).map entryCore := by
  induction c1 generalizing c2 with
  | nil =>
    cases c2 with
    | nil => rfl
    | cons q t => simp [stripAliases] at h
  | cons p r ih =>
    cases c2 with
    | nil => simp [stripAliases] at h
    | cons q t =>
      simp only [stripAliases, List.map_cons] at h
      injection h with hpq ht
      injection hpq with hname hent
      injection hent with hfmt hkeys
      rw [catFind, catFind]
      by_cases hds : p.1 = ds
      · rw [if_pos hds, if_pos (hname.symm.trans hds)]
        simp [entryCore, hfmt, hkeys]
      · rw [if_neg hds, if_neg (fun hq => hds (hname.trans hq))]
        exact ih t ht

theorem resolveTables_fst_congr (c1 c2 : Catalog) (sign : String → String)
    (coerce : String)
    (h : ∀ ds, (catFind c1 ds).map entryCore = (catFind c2 ds).map entryCore)
    (dss : List String) :
    (resolveTables c1 sign coerce dss).map Prod.fst =
      (resolveTables c2 sign coerce dss).map Prod.fst := by
  induction dss with
  | nil => rfl
  | cons ds rest ih =>
    have hds := h ds
    cases hf1 : catFind c1 ds with
    | some e1 =>
      cases hf2 : catFind c2 ds with
      | some e2 =>
        rw [hf1, hf2] at hds
        simp only [Option.map_some'] at hds
        injection hds with hds
        have hpair : (e1.format, e1.keys) = (e2.format, e2.keys) := hds
        injection hpair with hfmt hkeys
        by_cases hk : e1.keys = []
        · simp [resolveTables, hf1, hf2, ← hkeys, hk, Except.map]
        · cases hr1 : resolveTables c1 sign coerce rest with
          | error err1 =>
            cases hr2 : resolveTables c2 sign coerce rest with
            | error err2 =>
              rw [hr1, hr2] at ih
              simp only [Except.map, Except.error.injEq] at ih
              simp [resolveTables, hf1, hf2, ← hkeys, hk, hr1, hr2, Except.map, ih]
            | ok p2 =>
              rw [hr1, hr2] at ih
              simp [Except.map] at ih
          | ok p1 =>
            cases hr2 : resolveTables c2 sign coerce rest with
            | error err2 =>
              rw [hr1, hr2] at ih
              simp [Except.map] at ih
            | ok p2 =>
              rw [hr1, hr2] at ih
              simp only [Except.map, Except.ok.injEq] at ih
              simp [resolveTables, hf1, hf2, ← hkeys, ← hfmt, hk, hr1, hr2,
                Except.map, ih]
      | none =>
        rw [hf1, hf2] at hds
        simp at hds
    | none =>
      cases hf2 : catFind c2 ds with
      | some e2 =>
        rw [hf1, hf2] at hds
        simp at hds
      | none =>
        cases hr1 : resolveTables c1 sign coerce rest with
        | error err1 =>
          cases hr2 : resolveTables c2 sign coerce rest with
          | error err2 =>
            rw [hr1, hr2] at ih
            simp only [Except.map, Except.error.injEq] at ih
            simp [resolveTables, hf1, hf2, hr1, hr2, Except.map, ih]
          | ok p2 =>
            rw [hr1, hr2] at ih
            simp [Except.map] at ih
        | ok p1 =>
          cases hr2 : resolveTables c2 sign coerce rest with
          | error err2 =>
            rw [hr1, hr2] at ih
            simp [Except.map] at ih
          | ok p2 =>
            rw [hr1, hr2] at ih
            simp only [Except.map, Except.ok.injEq] at ih
            simp [resolveTables, hf1, hf2, hr1, hr2, Except.map, ih]

theorem previewItems_fst_congr (c1 c2 : Catalog) (sign : String → String)
    (coerce : String)
    (h : ∀ ds, (catFind c1 ds).map entryCore = (catFind c2 ds).map entryCore)
    (dss : List String) :
    (previewItems c1 sign coerce dss).map Prod.fst =
      (previewItems c2 sign coerce dss).map Prod.fst := by
  induction dss with
  | nil => rfl
  | cons ds rest ih =>
    have hds := h ds
    cases hf1 : catFind c1 ds with
    | some e1 =>
      cases hf2 : catFind c2 ds with
      | some e2 =>
        rw [hf1, hf2] at hds
        simp only [Option.map_some'] at hds
        injection hds with hds
        have hpair : (e1.format, e1.keys) = (e2.format, e2.keys) := hds
        injection hpair with hfmt hkeys
        simp [previewItems, hf1, hf2, List.map_map, Function.comp, ← hkeys, ← hfmt, ih]
      | none =>
        rw [hf1, hf2] at hds
        simp at hds
    | none =>
      cases hf2 : catFind c2 ds with
      | some e2 =>
        rw [hf1, hf2] at hds
        simp at hds
      | none => simp [previewItems, hf1, hf2, ih]

/-- C10: alias independence.  For any two catalogs that differ only in
the `aliases` field of their entries (same names, formats and keys —
i.e. equal after `stripAliases`), every `/query` and every `/preview`
request compiles to identical query text: the per-dataset alias maps are
collected by the resolution loops but never applied to the compiled
query. -/
theorem alias_independence (c1 c2 : Catalog) (sign : String → String)
    (b : QueryBody) (pb : PreviewBody) (h : stripAliases c1 = stripAliases c2) :
    compile_query c1 sign b = compile_query c2 sign b ∧
    compile_preview c1 sign pb = compile_preview c2 sign pb := by
  have hcore := stripAliases_catFind c1 c2 h
  constructor
  · by_cases hd : b.datasets = []
    · rw [compile_query, compile_query, if_pos hd, if_pos hd]
    · have hrt := resolveTables_fst_congr c1 c2 sign b.coerce hcore b.datasets
      cases hr1 : resolveTables c1 sign b.coerce b.datasets with
      | error e1 =>
        cases hr2 : resolveTables c2 sign b.coerce b.datasets with
        | error e2 =>
          rw [hr1, hr2] at hrt
          simp only [Except.map, Except.error.injEq] at hrt
          simp [compile_query, hd, hr1, hr2, hrt]
        | ok p2 =>
          rw [hr1, hr2] at hrt
          simp [Except.map] at hrt
      | ok p1 =>
        cases hr2 : resolveTables c2 sign b.coerce b.datasets with
        | error e2 =>
          rw [hr1, hr2] at hrt
          simp [Except.map] at hrt
        | ok p2 =>
          rw [hr1, hr2] at hrt
          simp only [Except.map, Except.ok.injEq] at hrt
          simp [compile_query, hd, hr1, hr2, hrt]
  · have hpi := previewItems_fst_congr c1 c2 sign pb.coerce hcore pb.datasets
    have hmaps :
        (previewItems c1 sign pb.coerce pb.datasets).map
            (fun it => "SELECT * FROM " ++ it.1) =
          (previewItems c2 sign pb.coerce pb.datasets).map
            (fun it => "SELECT * FROM " ++ it.1) := by
      have hcon := congrArg (List.map (fun t => "SELECT * FROM " ++ t)) hpi
      simpa [List.map_map, Function.comp] using hcon
    by_cases hd : pb.datasets = []
    · simp [compile_preview, hd]
    · simp [compile_preview, hd, hmaps]

/-- C10 witness: two one-entry catalogs differing only in aliases give
identical compiled text for a `/query` and a `/preview` request over the
catalogued dataset. -/
theorem alias_independence_witness :
    stripAliases [("d", ⟨Option.none, ["kk.csv"], [("raw", "canon")]⟩)] =
      stripAliases [("d", ⟨Option.none, ["kk.csv"], [("x", "y")]⟩)] ∧
    (compile_query [("d", ⟨Option.none, ["kk.csv"], [("raw", "canon")]⟩)] idSign
        ⟨["d"], "union", [], [], [], [], [], Option.none, 1, 1000, "auto"⟩ =
      compile_query [("d", ⟨Option.none, ["kk.csv"], [("x", "y")]⟩)] idSign
        ⟨["d"], "union", [], [], [], [], [], Option.none, 1, 1000, "auto"⟩ ∧
    compile_preview [("d", ⟨Option.none, ["kk.csv"], [("raw", "canon")]⟩)] idSign
        ⟨["d"], 100, "auto"⟩ =
      compile_preview [("d", ⟨Option.none, ["kk.csv"], [("x", "y")]⟩)] idSign
        ⟨["d"], 100, "auto"⟩) :=
  ⟨rfl,
    alias_independence
      [("d", ⟨Option.none, ["kk.csv"], [("raw", "canon")]⟩)]
      [("d", ⟨Option.none, ["kk.csv"], [("x", "y")]⟩)]
      idSign ⟨["d"], "union", [], [], [], [], [], Option.none, 1, 1000, "auto"⟩
      ⟨["d"], 100, "auto"⟩ rfl⟩

end Gateway
